import Mathlib

/-!
Shallow embedding of `mesonbuild/compilers/mixins/intel.py`: the two Intel
compiler-family adapters (`IntelGnuLikeCompiler` for ICC on POSIX systems,
`IntelVisualStudioLikeCompiler` for ICL on Windows) with their flag tables,
diagnostic-promotion wrappers, OpenMP flag selection, precompiled-header
naming and the MSVC toolset-version bridge.

Python dict accesses that can raise, and the fallible toolset-version
detection, are embedded as `Except`-returning functions over the error
taxonomy the specification names (`ConfigurationError` for an unrecognized
table key, i.e. Python's `KeyError`; `ToolchainDetectionError` for a missing
companion binary or unparseable version banner, i.e. the `OSError` /
`ValueError` the Python code lets escape).
-/

/-- The specification's error taxonomy for this component: an unrecognized
build-type or optimization key, and a failed toolset-version detection. -/
inductive MesonError where
  | configurationError
  | toolchainDetectionError
deriving DecidableEq, Repr

/-- Python dict subscript access `d[k]`: the value when the key is present,
otherwise the raised `KeyError`, which the specification calls a
`ConfigurationError`. -/
def dictAccess (d : List (String × List String)) (k : String) :
    Except MesonError (List String) :=
  match d.lookup k with
  | some v => Except.ok v
  | none => Except.error MesonError.configurationError

/-- Whether an `Except` computation succeeded. -/
def exceptIsOk {ε α : Type} : Except ε α → Bool
  | Except.ok _ => true
  | Except.error _ => false

/-- The `BUILD_ARGS` table of `IntelGnuLikeCompiler` (intel.py lines 54-61). -/
def IntelGnuLikeCompiler.BUILD_ARGS : List (String × List String) :=
  [("plain", []),
   ("debug", ["-g", "-traceback"]),
   ("debugoptimized", ["-g", "-traceback"]),
   ("release", []),
   ("minsize", []),
   ("custom", [])]

/-- The `OPTIM_ARGS` table of `IntelGnuLikeCompiler` (intel.py lines 63-70). -/
def IntelGnuLikeCompiler.OPTIM_ARGS : List (String × List String) :=
  [("0", ["-O0"]),
   ("g", ["-O0"]),
   ("1", ["-O1"]),
   ("2", ["-O2"]),
   ("3", ["-O3"]),
   ("s", ["-Os"])]

/-- `IntelGnuLikeCompiler.get_buildtype_args`: `return self.BUILD_ARGS[buildtype]`. -/
def IntelGnuLikeCompiler.get_buildtype_args (buildtype : String) :
    Except MesonError (List String) :=
  dictAccess IntelGnuLikeCompiler.BUILD_ARGS buildtype

/-- `IntelGnuLikeCompiler.get_optimization_args`: `return self.OPTIM_ARGS[optimization_level]`. -/
def IntelGnuLikeCompiler.get_optimization_args (optimization_level : String) :
    Except MesonError (List String) :=
  dictAccess IntelGnuLikeCompiler.OPTIM_ARGS optimization_level

/-- The `BUILD_ARGS` table of `IntelVisualStudioLikeCompiler` (intel.py lines 133-140). -/
def IntelVisualStudioLikeCompiler.BUILD_ARGS : List (String × List String) :=
  [("plain", []),
   ("debug", ["/Zi", "/traceback"]),
   ("debugoptimized", ["/Zi", "/traceback"]),
   ("release", []),
   ("minsize", []),
   ("custom", [])]

/-- The `OPTIM_ARGS` table of `IntelVisualStudioLikeCompiler` (intel.py lines 142-149). -/
def IntelVisualStudioLikeCompiler.OPTIM_ARGS : List (String × List String) :=
  [("0", ["/O0"]),
   ("g", ["/O0"]),
   ("1", ["/O1"]),
   ("2", ["/O2"]),
   ("3", ["/O3"]),
   ("s", ["/Os"])]

/-- `IntelVisualStudioLikeCompiler.get_buildtype_args`. -/
def IntelVisualStudioLikeCompiler.get_buildtype_args (buildtype : String) :
    Except MesonError (List String) :=
  dictAccess IntelVisualStudioLikeCompiler.BUILD_ARGS buildtype

/-- `IntelVisualStudioLikeCompiler.get_optimization_args`. -/
def IntelVisualStudioLikeCompiler.get_optimization_args (optimization_level : String) :
    Except MesonError (List String) :=
  dictAccess IntelVisualStudioLikeCompiler.OPTIM_ARGS optimization_level

/-- The six build-type keys of the closed key space. -/
def buildTypeKeys : List String :=
  ["plain", "debug", "debugoptimized", "release", "minsize", "custom"]

/-- The six optimization-level keys of the closed key space. -/
def optimizationLevelKeys : List String :=
  ["0", "g", "1", "2", "3", "s"]

lemma dictAccess_eq_error_of_forall_ne (d : List (String × List String)) (k : String)
    (h : ∀ p ∈ d, p.1 ≠ k) :
    dictAccess d k = Except.error MesonError.configurationError := by
  induction d with
  | nil => rfl
  | cons p rest ih =>
    have hne : p.1 ≠ k := h p (List.mem_cons_self p rest)
    have hkp : (k == p.1) = false := by
      exact beq_eq_false_iff_ne.mpr (fun hk => hne hk.symm)
    have hrest : ∀ q ∈ rest, q.1 ≠ k := fun q hq => h q (List.mem_cons_of_mem p hq)
    have := ih hrest
    simp only [dictAccess, List.lookup] at this ⊢
    rw [hkp]
    exact this

/-- C6 -- For each of the six build-type keys and each of the six
optimization-level keys, `get_buildtype_args` and `get_optimization_args` of
both adapters succeed with a well-defined flag list: the table-lookup error
branch is unreachable on these keys. -/
theorem intel_flag_tables_total_on_closed_keys :
    (buildTypeKeys.all fun k =>
      exceptIsOk (IntelGnuLikeCompiler.get_buildtype_args k) &&
      exceptIsOk (IntelVisualStudioLikeCompiler.get_buildtype_args k)) = true ∧
    (optimizationLevelKeys.all fun k =>
      exceptIsOk (IntelGnuLikeCompiler.get_optimization_args k) &&
      exceptIsOk (IntelVisualStudioLikeCompiler.get_optimization_args k)) = true := by
  constructor <;> rfl

/-- C5 -- For every string key outside the closed key sets,
`get_buildtype_args` and `get_optimization_args` of both adapters fail with a
`ConfigurationError` and never silently return a default or empty flag list. -/
theorem intel_flag_tables_closed_key_space (k : String) :
    (k ∉ buildTypeKeys →
      IntelGnuLikeCompiler.get_buildtype_args k
          = Except.error MesonError.configurationError ∧
      IntelVisualStudioLikeCompiler.get_buildtype_args k
          = Except.error MesonError.configurationError) ∧
    (k ∉ optimizationLevelKeys →
      IntelGnuLikeCompiler.get_optimization_args k
          = Except.error MesonError.configurationError ∧
      IntelVisualStudioLikeCompiler.get_optimization_args k
          = Except.error MesonError.configurationError) := by
  constructor
  · intro hk
    simp only [buildTypeKeys, List.mem_cons, List.not_mem_nil, or_false, not_or] at hk
    obtain ⟨h1, h2, h3, h4, h5, h6⟩ := hk
    have hall : ∀ p ∈ IntelGnuLikeCompiler.BUILD_ARGS, p.1 ≠ k := by
      intro p hp
      simp only [IntelGnuLikeCompiler.BUILD_ARGS, List.mem_cons, List.not_mem_nil,
        or_false] at hp
      rcases hp with h | h | h | h | h | h <;>
        (subst h; intro hc; simp_all)
    have hall2 : ∀ p ∈ IntelVisualStudioLikeCompiler.BUILD_ARGS, p.1 ≠ k := by
      intro p hp
      simp only [IntelVisualStudioLikeCompiler.BUILD_ARGS, List.mem_cons, List.not_mem_nil,
        or_false] at hp
      rcases hp with h | h | h | h | h | h <;>
        (subst h; intro hc; simp_all)
    exact ⟨dictAccess_eq_error_of_forall_ne _ _ hall,
           dictAccess_eq_error_of_forall_ne _ _ hall2⟩
  · intro hk
    simp only [optimizationLevelKeys, List.mem_cons, List.not_mem_nil, or_false, not_or] at hk
    obtain ⟨h1, h2, h3, h4, h5, h6⟩ := hk
    have hall : ∀ p ∈ IntelGnuLikeCompiler.OPTIM_ARGS, p.1 ≠ k := by
      intro p hp
      simp only [IntelGnuLikeCompiler.OPTIM_ARGS, List.mem_cons, List.not_mem_nil,
        or_false] at hp
      rcases hp with h | h | h | h | h | h <;>
        (subst h; intro hc; simp_all)
    have hall2 : ∀ p ∈ IntelVisualStudioLikeCompiler.OPTIM_ARGS, p.1 ≠ k := by
      intro p hp
      simp only [IntelVisualStudioLikeCompiler.OPTIM_ARGS, List.mem_cons, List.not_mem_nil,
        or_false] at hp
      rcases hp with h | h | h | h | h | h <;>
        (subst h; intro hc; simp_all)
    exact ⟨dictAccess_eq_error_of_forall_ne _ _ hall,
           dictAccess_eq_error_of_forall_ne _ _ hall2⟩

/-- Witness for C5: the key "fast" is outside both closed key sets, and both
lookups on it fail with a `ConfigurationError`. -/
theorem intel_flag_tables_closed_key_space_witness :
    IntelGnuLikeCompiler.get_buildtype_args "fast"
        = Except.error MesonError.configurationError ∧
    IntelVisualStudioLikeCompiler.get_optimization_args "fast"
        = Except.error MesonError.configurationError :=
  ⟨((intel_flag_tables_closed_key_space "fast").1 (by decide)).1,
   ((intel_flag_tables_closed_key_space "fast").2 (by decide)).2⟩

/-- C10 -- In both adapters the keys "debug" and "debugoptimized" resolve to
identical flag lists, and the optimization keys "0" and "g" resolve to the
identical list `-O0` (POSIX-like) respectively `/O0` (Windows-like). -/
theorem intel_debug_and_zero_key_aliases :
    IntelGnuLikeCompiler.get_buildtype_args "debug"
        = IntelGnuLikeCompiler.get_buildtype_args "debugoptimized" ∧
    IntelVisualStudioLikeCompiler.get_buildtype_args "debug"
        = IntelVisualStudioLikeCompiler.get_buildtype_args "debugoptimized" ∧
    IntelGnuLikeCompiler.get_optimization_args "0"
        = IntelGnuLikeCompiler.get_optimization_args "g" ∧
    IntelGnuLikeCompiler.get_optimization_args "0" = Except.ok ["-O0"] ∧
    IntelVisualStudioLikeCompiler.get_optimization_args "0"
        = IntelVisualStudioLikeCompiler.get_optimization_args "g" ∧
    IntelVisualStudioLikeCompiler.get_optimization_args "0" = Except.ok ["/O0"] :=
  ⟨rfl, rfl, rfl, rfl, rfl, rfl⟩

/-- The `-diag-error` token sequence `IntelGnuLikeCompiler.compiles` appends
(intel.py lines 103-112): seven promoted diagnostic codes, each introduced by
its own `-diag-error` token. -/
def IntelGnuLikeCompiler.diag_error_args : List String :=
  ["-diag-error", "10006",
   "-diag-error", "10148",
   "-diag-error", "10155",
   "-diag-error", "10156",
   "-diag-error", "10157",
   "-diag-error", "10158",
   "-diag-error", "1292"]

/-- The `/Qdiag-error:` flags `IntelVisualStudioLikeCompiler.compile` appends
(intel.py lines 158-165): six promoted diagnostic codes. -/
def IntelVisualStudioLikeCompiler.diag_error_args : List String :=
  ["/Qdiag-error:10006",
   "/Qdiag-error:10148",
   "/Qdiag-error:10155",
   "/Qdiag-error:10156",
   "/Qdiag-error:10157",
   "/Qdiag-error:10158"]

/-- The heterogeneous Python list `IntelGnuLikeCompiler.compiles` builds:
its first element is itself a list (the caller's `extra_args`, with
`kwargs.get('extra_args') or []` turning an absent or `None` value into `[]`),
followed by the flat `-diag-error` string tokens. `Sum.inl` is a nested list
element, `Sum.inr` a plain string element. -/
def IntelGnuLikeCompiler.compiles_extra_args (extra_args : Option (List String)) :
    List (List String ⊕ String) :=
  Sum.inl (extra_args.getD []) ::
    IntelGnuLikeCompiler.diag_error_args.map Sum.inr

/-- Flattening of a one-level-nested Python argument list into the token
sequence the underlying compile probe receives (meson flattens `extra_args`
downstream with `mesonlib.listify`). -/
def flattenArgs : List (List String ⊕ String) → List String
  | [] => []
  | Sum.inl xs :: rest => xs ++ flattenArgs rest
  | Sum.inr x :: rest => x :: flattenArgs rest

/-- The `extra_args` value `IntelVisualStudioLikeCompiler.compile` passes to
`super().compile` (intel.py lines 155-167): when `kwargs.get('mode', 'compile')`
is not `'link'`, a copy of the caller's list (or a fresh `[]` when the caller
passed `None`) extended with the six `/Qdiag-error:` flags; in link mode the
caller's `extra_args` unchanged (possibly `None`). -/
def IntelVisualStudioLikeCompiler.compile_extra_args
    (extra_args : Option (List String)) (mode : Option String) :
    Option (List String) :=
  if mode.getD "compile" ≠ "link" then
    some (extra_args.getD [] ++ IntelVisualStudioLikeCompiler.diag_error_args)
  else
    extra_args

lemma flattenArgs_map_inr (l : List String) :
    flattenArgs (l.map Sum.inr) = l := by
  induction l with
  | nil => rfl
  | cons x xs ih => simp [flattenArgs, ih]

/-- C1 -- For both adapters the diagnostic-promotion wrapper passes every
caller-supplied extra-argument token to the underlying probe unchanged and in
its original order, and only appends the fixed family-specific diag-error
flags after them: the token sequence the probe receives is exactly the
caller's tokens followed by the promotion flags (the POSIX-like wrapper nests
the caller's list as the first element of the new list, which downstream
flattening linearizes without dropping or reordering any token; the
Windows-like wrapper extends a flat copy). -/
theorem intel_diag_promotion_preserves_caller_tokens (extra : List String) :
    flattenArgs (IntelGnuLikeCompiler.compiles_extra_args (some extra))
        = extra ++ IntelGnuLikeCompiler.diag_error_args ∧
    IntelVisualStudioLikeCompiler.compile_extra_args (some extra) (some "compile")
        = some (extra ++ IntelVisualStudioLikeCompiler.diag_error_args) ∧
    IntelVisualStudioLikeCompiler.compile_extra_args (some extra) (some "link")
        = some extra := by
  refine ⟨?_, rfl, rfl⟩
  simp [IntelGnuLikeCompiler.compiles_extra_args, flattenArgs, flattenArgs_map_inr,
    IntelGnuLikeCompiler.diag_error_args]

/-- C2 -- The Windows-like `compile` appends the `/Qdiag-error` promotion
flags if and only if the invocation mode is not `'link'` (a missing mode
defaults to `'compile'`): every non-link invocation passes down the caller's
tokens followed by all six promotion flags, while every link-mode invocation
passes the caller's `extra_args` through unchanged, so it contains no token
the caller did not supply, in particular no promotion flag the caller did not
supply. -/
theorem intel_cl_promotion_gated_on_mode
    (extra : List String) (extraOpt : Option (List String)) (mode : Option String) :
    (mode.getD "compile" ≠ "link" →
      IntelVisualStudioLikeCompiler.compile_extra_args extraOpt mode
          = some (extraOpt.getD [] ++ IntelVisualStudioLikeCompiler.diag_error_args) ∧
      ∀ f ∈ IntelVisualStudioLikeCompiler.diag_error_args,
        f ∈ (IntelVisualStudioLikeCompiler.compile_extra_args extraOpt mode).getD []) ∧
    (mode.getD "compile" = "link" →
      IntelVisualStudioLikeCompiler.compile_extra_args (some extra) mode = some extra ∧
      ∀ f, f ∉ extra →
        f ∉ (IntelVisualStudioLikeCompiler.compile_extra_args (some extra) mode).getD []) := by
  constructor
  · intro hmode
    have heq : IntelVisualStudioLikeCompiler.compile_extra_args extraOpt mode
        = some (extraOpt.getD [] ++ IntelVisualStudioLikeCompiler.diag_error_args) := by
      simp [IntelVisualStudioLikeCompiler.compile_extra_args, hmode]
    refine ⟨heq, ?_⟩
    intro f hf
    rw [heq]
    simp [List.mem_append, hf]
  · intro hmode
    have heq : IntelVisualStudioLikeCompiler.compile_extra_args (some extra) mode
        = some extra := by
      simp [IntelVisualStudioLikeCompiler.compile_extra_args, hmode]
    refine ⟨heq, ?_⟩
    intro f hf
    rw [heq]
    simpa using hf

/-- Modelled from the spec: `mesonlib.version_compare` (an external
version-comparison utility, not under src/) compares dotted numeric versions
component-wise numerically, a missing trailing component comparing below a
present one; `versionLt v w` is the strict comparison. -/
def versionLt : List Nat → List Nat → Bool
  | [], [] => false
  | [], _ :: _ => true
  | _ :: _, [] => false
  | a :: as, b :: bs => a < b || (a == b && versionLt as bs)

/-- Modelled from the spec: the inclusive-at-threshold comparison
`mesonlib.version_compare(version, ">=threshold")`. -/
def version_compare_ge (version threshold : List Nat) : Bool :=
  ! versionLt version threshold

/-- `IntelGnuLikeCompiler.openmp_flags` (intel.py lines 94-98): the modern
spelling when `version_compare(self.version, ">=15.0.0")`, otherwise the
legacy spelling. -/
def IntelGnuLikeCompiler.openmp_flags (version : List Nat) : List String :=
  if version_compare_ge version [15, 0, 0] then ["-qopenmp"] else ["-openmp"]

/-- `IntelVisualStudioLikeCompiler.openmp_flags` (intel.py lines 181-182). -/
def IntelVisualStudioLikeCompiler.openmp_flags : List String :=
  ["/Qopenmp"]

/-- C7 -- The POSIX-like adapter returns the legacy `-openmp` for every
version strictly below 15.0.0 and the modern `-qopenmp` for every version at
or above 15.0.0, the boundary 15.0.0 itself included (e.g. 14.9.9 is legacy),
while the Windows-like adapter returns the fixed `/Qopenmp` for every
version. -/
theorem intel_openmp_flag_threshold (v : List Nat) :
    (versionLt v [15, 0, 0] = true →
      IntelGnuLikeCompiler.openmp_flags v = ["-openmp"]) ∧
    (versionLt v [15, 0, 0] = false →
      IntelGnuLikeCompiler.openmp_flags v = ["-qopenmp"]) ∧
    IntelGnuLikeCompiler.openmp_flags [14, 9, 9] = ["-openmp"] ∧
    IntelGnuLikeCompiler.openmp_flags [15, 0, 0] = ["-qopenmp"] ∧
    IntelVisualStudioLikeCompiler.openmp_flags = ["/Qopenmp"] := by
  refine ⟨?_, ?_, by decide, by decide, rfl⟩
  · intro hlt
    simp [IntelGnuLikeCompiler.openmp_flags, version_compare_ge, hlt]
  · intro hge
    simp [IntelGnuLikeCompiler.openmp_flags, version_compare_ge, hge]

/-- Witness for C7: version 14.9.9 is strictly below the threshold and gets
the legacy spelling. -/
theorem intel_openmp_flag_threshold_witness :
    versionLt [14, 9, 9] [15, 0, 0] = true ∧
    IntelGnuLikeCompiler.openmp_flags [14, 9, 9] = ["-openmp"] :=
  ⟨by decide, (intel_openmp_flag_threshold [14, 9, 9]).1 (by decide)⟩

/-- POSIX `os.path.basename`: the longest suffix of the path containing no
path separator. -/
def basename (s : String) : String :=
  String.mk ((s.data.reverse.takeWhile fun c => c != '/').reverse)

/-- `IntelGnuLikeCompiler.get_pch_suffix` (intel.py lines 84-85). -/
def IntelGnuLikeCompiler.get_pch_suffix : String :=
  "pchi"

/-- `IntelGnuLikeCompiler.get_pch_name` (intel.py lines 91-92):
`os.path.basename(header_name) + '.' + self.get_pch_suffix()`. -/
def IntelGnuLikeCompiler.get_pch_name (header_name : String) : String :=
  basename header_name ++ "." ++ IntelGnuLikeCompiler.get_pch_suffix

lemma takeWhile_append_of_forall {p : Char → Bool} (l1 l2 : List Char)
    (h : ∀ x ∈ l1, p x = true) :
    (l1 ++ l2).takeWhile p = l1 ++ l2.takeWhile p := by
  induction l1 with
  | nil => simp
  | cons c cs ih =>
    have hc := h c (List.mem_cons_self c cs)
    simp [List.takeWhile, hc, ih fun x hx => h x (List.mem_cons_of_mem c hx)]

lemma basename_of_no_sep (base : String) (hb : '/' ∉ base.data) :
    basename base = base := by
  unfold basename
  have hall : ∀ x ∈ base.data.reverse, (x != '/') = true := by
    intro x hx
    have : x ∈ base.data := List.mem_reverse.mp hx
    exact bne_iff_ne.mpr fun he => hb (he ▸ this)
  have := takeWhile_append_of_forall base.data.reverse [] hall
  simp only [List.append_nil] at this
  rw [this]
  simp

lemma basename_drops_dir (dir base : String) (hb : '/' ∉ base.data) :
    basename (dir ++ "/" ++ base) = base := by
  unfold basename
  have hdata : (dir ++ "/" ++ base).data = dir.data ++ ['/'] ++ base.data := rfl
  have hall : ∀ x ∈ base.data.reverse, (x != '/') = true := by
    intro x hx
    have : x ∈ base.data := List.mem_reverse.mp hx
    exact bne_iff_ne.mpr fun he => hb (he ▸ this)
  rw [hdata]
  have hrev : (dir.data ++ ['/'] ++ base.data).reverse
      = base.data.reverse ++ '/' :: dir.data.reverse := by
    simp
  rw [hrev, takeWhile_append_of_forall _ _ hall]
  simp [List.takeWhile]

/-- C8 -- Precompiled-header naming is a pure function of the header name
alone: the suffix is the fixed "pchi", `get_pch_name "foo.h" = "foo.h.pchi"`,
and for any directory prefix the result equals the one computed from the bare
base name, so the directory component is irrelevant. -/
theorem intel_gnu_pch_name_pure (dir base : String) (hb : '/' ∉ base.data) :
    IntelGnuLikeCompiler.get_pch_suffix = "pchi" ∧
    IntelGnuLikeCompiler.get_pch_name "foo.h" = "foo.h.pchi" ∧
    IntelGnuLikeCompiler.get_pch_name (dir ++ "/" ++ base) = base ++ "." ++ "pchi" ∧
    IntelGnuLikeCompiler.get_pch_name base = base ++ "." ++ "pchi" := by
  refine ⟨rfl, by decide, ?_, ?_⟩
  · unfold IntelGnuLikeCompiler.get_pch_name IntelGnuLikeCompiler.get_pch_suffix
    rw [basename_drops_dir dir base hb]
  · unfold IntelGnuLikeCompiler.get_pch_name IntelGnuLikeCompiler.get_pch_suffix
    rw [basename_of_no_sep base hb]

/-- Witness for C8: a header under a two-level directory keeps only its base
name in the pch artifact name. -/
theorem intel_gnu_pch_name_pure_witness :
    IntelGnuLikeCompiler.get_pch_name ("sub/dir" ++ "/" ++ "bar.h")
      = "bar.h" ++ "." ++ "pchi" :=
  (intel_gnu_pch_name_pure "sub/dir" "bar.h" (by decide)).2.2.1

/-- A tiny heap of Python list objects holding string tokens: addresses are
indices into the store. It models list object identity, so that mutation
(`list.extend`) versus copying (`list.copy()`) is observable. -/
structure PyHeap where
  store : List (List String)

/-- Contents of the list object at address `a`. -/
def PyHeap.read (h : PyHeap) (a : Nat) : List String :=
  (h.store[a]?).getD []

/-- Allocate a fresh list object with contents `v` (models `list.copy()` and
the literal `[]`); returns its address and the grown heap. -/
def PyHeap.alloc (h : PyHeap) (v : List String) : Nat × PyHeap :=
  (h.store.length, ⟨h.store ++ [v]⟩)

/-- Python `list.extend`: in-place append to the object at address `a`. -/
def PyHeap.extendAt (h : PyHeap) (a : Nat) (xs : List String) : PyHeap :=
  ⟨h.store.set a (h.read a ++ xs)⟩

/-- `IntelVisualStudioLikeCompiler.compile` (intel.py lines 155-167) at the
level of list objects: when the mode is not `'link'` it rebinds the local
name to `extra_args.copy()` (or a fresh `[]` when the caller passed `None`),
extends that fresh object with the six `/Qdiag-error:` flags, and passes its
address down; in link mode it passes the caller's reference through
untouched. Returns the final heap and the address passed to
`super().compile`. -/
def IntelVisualStudioLikeCompiler.compile_heap
    (h : PyHeap) (extra_args : Option Nat) (mode : Option String) :
    PyHeap × Option Nat :=
  if mode.getD "compile" ≠ "link" then
    let cur : List String :=
      match extra_args with
      | some a => h.read a
      | none => []
    let fresh := h.alloc cur
    (fresh.2.extendAt fresh.1 IntelVisualStudioLikeCompiler.diag_error_args,
     some fresh.1)
  else
    (h, extra_args)

/-- C9 -- `IntelVisualStudioLikeCompiler.compile` never mutates the caller's
`extra_args` list object: whatever the mode, after the call the list at the
caller's address holds exactly the elements it held before, because the
compile-mode branch extends a fresh copy, never the caller's object. -/
theorem intel_cl_compile_no_caller_mutation
    (h : PyHeap) (a : Nat) (mode : Option String) (ha : a < h.store.length) :
    ((IntelVisualStudioLikeCompiler.compile_heap h (some a) mode).1).read a
      = h.read a := by
  by_cases hm : mode.getD "compile" = "link"
  · simp [IntelVisualStudioLikeCompiler.compile_heap, hm]
  · simp only [IntelVisualStudioLikeCompiler.compile_heap, hm, ne_eq,
      not_false_iff, if_pos, if_true, ite_not, ite_false, PyHeap.alloc,
      PyHeap.extendAt, PyHeap.read]
    rw [List.getElem?_set_ne (Nat.ne_of_lt ha).symm,
      List.getElem?_append_left ha]

/-- Witness for C9: a one-object heap holding the caller list `["-x"]`; after
a compile-mode invocation the caller's object still reads `["-x"]`. -/
theorem intel_cl_compile_no_caller_mutation_witness :
    ((IntelVisualStudioLikeCompiler.compile_heap ⟨[["-x"]]⟩ (some 0) none).1).read 0
      = PyHeap.read ⟨[["-x"]]⟩ 0 :=
  intel_cl_compile_no_caller_mutation ⟨[["-x"]]⟩ 0 none (by decide)

/-- Python `str.split('.')` on the character level: splits at every dot and
keeps empty pieces. -/
def splitDotChars : List Char → List (List Char)
  | [] => [[]]
  | c :: cs =>
    let rest := splitDotChars cs
    if c = '.' then [] :: rest
    else (c :: rest.headD []) :: rest.tail

/-- Python `version_string.split('.')`. -/
def pySplitDot (s : String) : List String :=
  (splitDotChars s.data).map fun cs => String.mk cs

/-- One decimal digit of a Python `int()` literal. -/
def pyDigit? (c : Char) : Option Nat :=
  if 48 ≤ c.toNat ∧ c.toNat ≤ 57 then some (c.toNat - 48) else none

/-- Python `int(s)` restricted to plain decimal digit strings: `none` models
the `ValueError` raised on anything else. -/
def pyInt? (s : String) : Option Nat :=
  if s.data.isEmpty then none
  else
    s.data.foldl
      (fun acc c =>
        match acc, pyDigit? c with
        | some n, some d => some (n * 10 + d)
        | _, _ => none)
      (some 0)

/-- `IntelVisualStudioLikeCompiler.get_toolset_version` (intel.py lines
169-179), parameterized over its collaborators, none of which live in this
file's source: `popen_cl_err` is the stderr text of `Popen_safe(['cl.exe'])`
(or the detection error when the companion binary is missing),
`search_version` is meson's shared banner parser (`none` models output from
which no dotted version can be extracted), and `calcToolset` is the inherited
`_calculate_toolset_version`. The body mirrors the source: split the parsed
version on dots, take the first two components (fewer than two is the
`ValueError` of the starred unpacking), concatenate them, convert with
`int()`, and hand the integer to the shared calculation. All failures
surface as the specification's `ToolchainDetectionError`. -/
def IntelVisualStudioLikeCompiler.get_toolset_version
    (popen_cl_err : Except MesonError String)
    (search_version : String → Option String)
    (calcToolset : Nat → Option String) : Except MesonError (Option String) :=
  match popen_cl_err with
  | Except.error e => Except.error e
  | Except.ok err =>
    match search_version err with
    | none => Except.error MesonError.toolchainDetectionError
    | some ver =>
      match pySplitDot ver with
      | v1 :: v2 :: _ =>
        match pyInt? (v1 ++ v2) with
        | some n => Except.ok (calcToolset n)
        | none => Except.error MesonError.toolchainDetectionError
      | _ => Except.error MesonError.toolchainDetectionError

/-- C3 -- When the shared parser extracts "19.16.27034" from the companion
compiler's banner, `get_toolset_version` splits it into components whose
first two are "19" and "16", concatenates them to the integer 1916, and
returns exactly what the shared `_calculate_toolset_version` routine produces
for 1916. -/
theorem intel_cl_toolset_version_bridge
    (search_version : String → Option String) (calcToolset : Nat → Option String)
    (banner : String) (hparse : search_version banner = some "19.16.27034") :
    pySplitDot "19.16.27034" = ["19", "16", "27034"] ∧
    pyInt? ("19" ++ "16") = some 1916 ∧
    IntelVisualStudioLikeCompiler.get_toolset_version
        (Except.ok banner) search_version calcToolset = Except.ok (calcToolset 1916) := by
  refine ⟨by decide, by decide, ?_⟩
  simp only [IntelVisualStudioLikeCompiler.get_toolset_version, hparse]
  rfl

/-- Witness for C3: with a parser that extracts "19.16.27034" and the
identity-style calculation `toString`, the bridge returns "1916". -/
theorem intel_cl_toolset_version_bridge_witness :
    IntelVisualStudioLikeCompiler.get_toolset_version (Except.ok "banner")
        (fun _ => some "19.16.27034") (fun n => some (toString n))
      = Except.ok (some "1916") :=
  ((intel_cl_toolset_version_bridge (fun _ => some "19.16.27034")
    (fun n => some (toString n)) "banner" rfl).2.2).trans rfl

/-- C4 -- When the companion `cl.exe` binary is missing, or its output yields
no parseable version string (meson's parser falls back to the sentinel
"unknown version", whose dot-split has a single component), the bridge fails
with a `ToolchainDetectionError` and never returns a guessed value. -/
theorem intel_cl_toolset_version_unavailable
    (search_version : String → Option String) (calcToolset : Nat → Option String)
    (banner : String) :
    IntelVisualStudioLikeCompiler.get_toolset_version
        (Except.error MesonError.toolchainDetectionError) search_version calcToolset
      = Except.error MesonError.toolchainDetectionError ∧
    (search_version banner = none →
      IntelVisualStudioLikeCompiler.get_toolset_version
          (Except.ok banner) search_version calcToolset
        = Except.error MesonError.toolchainDetectionError) ∧
    (search_version banner = some "unknown version" →
      IntelVisualStudioLikeCompiler.get_toolset_version
          (Except.ok banner) search_version calcToolset
        = Except.error MesonError.toolchainDetectionError) := by
  refine ⟨rfl, ?_, ?_⟩
  · intro hnone
    simp only [IntelVisualStudioLikeCompiler.get_toolset_version, hnone]
  · intro hsent
    simp only [IntelVisualStudioLikeCompiler.get_toolset_version, hsent]
    rfl

/-- Witness for C4: a parser that never finds a version makes the bridge fail
with a `ToolchainDetectionError`. -/
theorem intel_cl_toolset_version_unavailable_witness :
    IntelVisualStudioLikeCompiler.get_toolset_version (Except.ok "gibberish")
        (fun _ => none) (fun n => some (toString n))
      = Except.error MesonError.toolchainDetectionError :=
  (intel_cl_toolset_version_unavailable (fun _ => none)
    (fun n => some (toString n)) "gibberish").2.1 rfl

/-- Witness for C2: with caller tokens `["/foo"]`, a missing mode (defaulting
to compile) appends the six promotion flags, while link mode passes the list
through unchanged. -/
theorem intel_cl_promotion_gated_on_mode_witness :
    IntelVisualStudioLikeCompiler.compile_extra_args (some ["/foo"]) none
      = some (["/foo"] ++ IntelVisualStudioLikeCompiler.diag_error_args) ∧
    IntelVisualStudioLikeCompiler.compile_extra_args (some ["/foo"]) (some "link")
      = some ["/foo"] :=
  ⟨((intel_cl_promotion_gated_on_mode ["/foo"] (some ["/foo"]) none).1 (by decide)).1,
   ((intel_cl_promotion_gated_on_mode ["/foo"] (some ["/foo"]) (some "link")).2 rfl).1⟩
